import Mathlib

/-!
# Verification of `subtitle_handler.py` (visecal/tts)

Shallow embedding of the concurrent subtitle-rendering pipeline in
`src/subtitle_handler.py`.  The external collaborators
(`handle_text.prepare_tts_input_with_context`, `tts_handler.generate_speech`)
are black boxes: they are passed in as oracle functions returning
`Except String _`, where a `.error` value models a raised Python exception
carrying `str(exc)`.

Concurrency model: `render_subtitles_to_zip` submits one future per cue and
drains them with `as_completed`, whose iteration order is nondeterministic.
We model a completion schedule as an explicit list `completed` that is a
permutation of the submitted cue list; every theorem quantifies over it.

The zip archive is represented by its ordered list of entries
`(arcname, artifact_path)`; the nondeterministic temp-file name of the
archive container is abstracted away.  The file system holding the audio
artifacts is modelled as the list of existing artifact paths.
-/

namespace SubtitleTTS

/-- One parsed SRT cue (`srt.Subtitle`): caller-assigned integer index,
start/end timestamps (kept as the strings Python `str()` renders them to,
since the code only ever interpolates them into messages), and the text
content.  The Python attribute `end` is a Lean keyword, hence `endTime`. -/
structure Subtitle where
  index : Int
  start : String
  endTime : String
  content : String
deriving DecidableEq, Repr

/-- Embeds `_render_segment` (src/subtitle_handler.py lines 28-41): optionally
normalize the cue text, then synthesize it, returning `(subtitle.index,
output_path)`.  `prepare` is the external
`prepare_tts_input_with_context`, `generate` the external
`generate_speech`; an exception raised by either propagates out. -/
def renderSegment (prepare : String → Except String String)
    (generate : String → String → String → Rat → Except String String)
    (subtitle : Subtitle) (voice : String) (response_format : String)
    (speed : Rat) (sanitize_text : Bool) : Except String (Int × String) :=
  match (if sanitize_text then prepare subtitle.content
         else Except.ok subtitle.content) with
  | .error exc => .error exc
  | .ok text =>
    match generate text voice response_format speed with
    | .error exc => .error exc
    | .ok output_path => .ok (subtitle.index, output_path)

/-- The failure record built in the `except` branch of the collection loop
(lines 74-77): an f-string naming the cue's index, start/end timestamps and
the underlying cause. -/
def errorMessage (subtitle : Subtitle) (exc : String) : String :=
  "Failed to render subtitle " ++ toString subtitle.index ++
    " (" ++ subtitle.start ++ " -> " ++ subtitle.endTime ++ "): " ++ exc

/-- Embeds the `as_completed` drain loop (lines 57-80): walk the futures in
completion order (`completed`), appending `(index, path)` to `results` on
success and a formatted message to `errors` on exception. -/
def collectResults (prepare : String → Except String String)
    (generate : String → String → String → Rat → Except String String)
    (voice : String) (response_format : String) (speed : Rat)
    (sanitize_text : Bool) (completed : List Subtitle) :
    List (Int × String) × List String :=
  completed.foldl
    (fun acc subtitle =>
      match renderSegment prepare generate subtitle voice response_format
          speed sanitize_text with
      | .ok result => (acc.1 ++ [result], acc.2)
      | .error exc => (acc.1, acc.2 ++ [errorMessage subtitle exc]))
    ([], [])

/-- Left-pad a string with `'0'` up to `width` characters. -/
def pad0 (width : Nat) (s : String) : String :=
  String.mk (List.replicate (width - s.length) '0') ++ s

/-- Python's format spec `f"\x7bn:04d\x7d"`: minimum field width 4, the zero
padding inserted after the sign. -/
def pyFormat04 (n : Int) : String :=
  if n < 0 then "-" ++ pad0 3 (Nat.repr n.natAbs) else pad0 4 (Nat.repr n.toNat)

/-- The archive entry name built at line 89: `f"\x7bindex:04d\x7d.\x7bresponse_format\x7d"`. -/
def arcname (index : Int) (response_format : String) : String :=
  pyFormat04 index ++ "." ++ response_format

/-- The spec's naming scheme, stated from its words: the decimal string of
the index (`str(index)`), zero-padded to `width` characters with the
padding inserted after a leading sign — Python's `str.zfill` (`toString`
never emits `'+'`, so only `'-'` is handled).  `specEntryName` below
appends the dot and the format extension. -/
def zfill (width : Nat) (s : String) : String :=
  if s.data.head? = some '-' then
    "-" ++ pad0 (width - 1) (String.mk s.data.tail)
  else pad0 width s

/-- The entry name as the spec words it: 4-digit zero-padded decimal index,
`.` , format extension. -/
def specEntryName (index : Int) (response_format : String) : String :=
  zfill 4 (toString index) ++ "." ++ response_format

/-- `Path(path).unlink(missing_ok=True)` (line 91) on the modelled file
system: remove the path if present; a missing path is tolerated (the
function is total — no error value). -/
def unlinkMissingOk (fs : List String) (path : String) : List String :=
  fs.filter (fun q => q ≠ path)

/-- The body of the `with zipfile.ZipFile(...)` loop (lines 87-91) run over
an already-sorted item list: for each `(index, path)` append the entry
`(arcname, path)` to the archive and immediately unlink the source
artifact. Returns the built entry list and the final file system. -/
def archiveLoop (response_format : String) (items : List (Int × String))
    (fs : List String) : List (String × String) × List String :=
  items.foldl
    (fun acc item =>
      (acc.1 ++ [(arcname item.1 response_format, item.2)],
       unlinkMissingOk acc.2 item.2))
    ([], fs)

/-- The archive-building step (lines 85-91): sort the collected results by
index — `sorted(results, key=lambda item: item[0])`, a stable sort, matched
by `List.mergeSort` on the key — then run the write/unlink loop. -/
def writeArchive (response_format : String) (results : List (Int × String))
    (fs : List String) : List (String × String) × List String :=
  archiveLoop response_format (results.mergeSort (fun a b => a.1 ≤ b.1)) fs

/-- The two exception kinds `render_subtitles_to_zip` can raise: the
`ValueError` from `ThreadPoolExecutor.__init__` and the aggregate
`RuntimeError` of line 83. -/
inductive PyError where
  | valueError (msg : String)
  | runtimeError (msg : String)
deriving DecidableEq, Repr

/-- Embeds `render_subtitles_to_zip` (lines 44-93).
`ThreadPoolExecutor.__init__` raises
`ValueError("max_workers must be greater than 0")` for a non-positive
worker count before any future is submitted (CPython
`concurrent/futures/thread.py`), modelled by the leading guard.  Otherwise
the futures are drained in completion order `completed` (a permutation of
`subtitles`); if any error was recorded the aggregate `RuntimeError` of
line 83 carries `"; ".join(errors)`; otherwise the archive is built and
`(entries, len(results))` is returned, the container's temp path being
abstracted to the entry list itself. `fs` is the file system at archiving
time. -/
def render_subtitles_to_zip (prepare : String → Except String String)
    (generate : String → String → String → Rat → Except String String)
    (voice : String) (response_format : String)
    (speed : Rat) (sanitize_text : Bool) (max_workers : Int)
    (completed : List Subtitle) (fs : List String) :
    Except PyError (List (String × String) × Nat) :=
  if max_workers ≤ 0 then
    .error (.valueError "max_workers must be greater than 0")
  else
    let collected := collectResults prepare generate voice response_format
      speed sanitize_text completed
    if collected.2 ≠ [] then
      .error (.runtimeError (String.intercalate "; " collected.2))
    else
      .ok ((writeArchive response_format collected.1 fs).1, collected.1.length)

/-- The success component of one drained future: `some (index, path)` when
the segment rendered, `none` when it raised. -/
def okRecord (prepare : String → Except String String)
    (generate : String → String → String → Rat → Except String String)
    (voice : String) (response_format : String) (speed : Rat)
    (sanitize_text : Bool) (s : Subtitle) : Option (Int × String) :=
  (renderSegment prepare generate s voice response_format speed
    sanitize_text).toOption

/-- The failure component of one drained future: the formatted error message
when the segment raised, `none` when it rendered. -/
def errRecord (prepare : String → Except String String)
    (generate : String → String → String → Rat → Except String String)
    (voice : String) (response_format : String) (speed : Rat)
    (sanitize_text : Bool) (s : Subtitle) : Option String :=
  match renderSegment prepare generate s voice response_format speed
      sanitize_text with
  | .ok _ => none
  | .error exc => some (errorMessage s exc)

/-- Sample oracle: normalization that always succeeds unchanged. -/
def prepOk : String → Except String String := fun t => .ok t

/-- Sample oracle: normalization failing on the text `"bad"`. -/
def prepPicky : String → Except String String :=
  fun t => if t = "bad" then .error "normcrash" else .ok t

/-- Sample oracle: synthesis deriving a deterministic artifact path. -/
def genPath : String → String → String → Rat → Except String String :=
  fun t _ _ _ => .ok ("/tmp/" ++ t ++ ".bin")

/-- Sample oracle: synthesis failing on the text `"boom"`. -/
def genPicky : String → String → String → Rat → Except String String :=
  fun t _ _ _ => if t = "boom" then .error "synthcrash"
                 else .ok ("/tmp/" ++ t ++ ".bin")

/-- Sample oracle: synthesis that fails on the text `"bad"` with the same
cause string `prepPicky` uses, letting a synthesis failure mimic a
normalization failure. -/
def genBadCrash : String → String → String → Rat → Except String String :=
  fun t _ _ _ => if t = "bad" then .error "normcrash"
                 else .ok ("/tmp/" ++ t ++ ".bin")

/-- Sample cue. -/
def cueA : Subtitle := ⟨1, "0:00:01", "0:00:02", "hello"⟩

/-- Sample cue. -/
def cueB : Subtitle := ⟨2, "0:00:03", "0:00:04", "world"⟩

/-- Sample cue whose synthesis `genPicky` rejects. -/
def cueBoom : Subtitle := ⟨5, "0:00:09", "0:00:11", "boom"⟩

/-- Sample cue whose normalization `prepPicky` rejects. -/
def cueBad : Subtitle := ⟨3, "0:00:05", "0:00:06", "bad"⟩

/-!  ## Helper lemmas  -/

/-- The collection loop from an arbitrary accumulator appends, per drained
future, its success record to the first component or its failure record to
the second. -/
theorem collectResults_go (prepare : String → Except String String)
    (generate : String → String → String → Rat → Except String String)
    (voice : String) (response_format : String) (speed : Rat)
    (sanitize_text : Bool) (l : List Subtitle) :
    ∀ acc : List (Int × String) × List String,
      l.foldl
        (fun acc subtitle =>
          match renderSegment prepare generate subtitle voice response_format
              speed sanitize_text with
          | .ok result => (acc.1 ++ [result], acc.2)
          | .error exc => (acc.1, acc.2 ++ [errorMessage subtitle exc])) acc
      = (acc.1 ++ l.filterMap
            (okRecord prepare generate voice response_format speed sanitize_text),
         acc.2 ++ l.filterMap
            (errRecord prepare generate voice response_format speed sanitize_text)) := by
  induction l with
  | nil => intro acc; simp
  | cons s t ih =>
    intro acc
    cases h : renderSegment prepare generate s voice response_format speed
        sanitize_text with
    | ok r =>
      simp only [List.foldl_cons, h, ih, List.filterMap_cons, okRecord,
        errRecord, h, Except.toOption, List.append_assoc, List.singleton_append]
    | error e =>
      simp only [List.foldl_cons, h, ih, List.filterMap_cons, okRecord,
        errRecord, h, Except.toOption, List.append_assoc, List.singleton_append]

/-- The collection loop is a per-future `filterMap`: each drained future
contributes exactly its own record, independently of its siblings. -/
theorem collectResults_eq (prepare : String → Except String String)
    (generate : String → String → String → Rat → Except String String)
    (voice : String) (response_format : String) (speed : Rat)
    (sanitize_text : Bool) (l : List Subtitle) :
    collectResults prepare generate voice response_format speed sanitize_text l
      = (l.filterMap
           (okRecord prepare generate voice response_format speed sanitize_text),
         l.filterMap
           (errRecord prepare generate voice response_format speed sanitize_text)) := by
  simpa [collectResults] using
    collectResults_go prepare generate voice response_format speed
      sanitize_text l ([], [])

/-- Every drained future lands in exactly one of the two record streams. -/
theorem length_ok_add_err (prepare : String → Except String String)
    (generate : String → String → String → Rat → Except String String)
    (voice : String) (response_format : String) (speed : Rat)
    (sanitize_text : Bool) (l : List Subtitle) :
    (l.filterMap
        (okRecord prepare generate voice response_format speed sanitize_text)).length
      + (l.filterMap
          (errRecord prepare generate voice response_format speed sanitize_text)).length
      = l.length := by
  induction l with
  | nil => simp
  | cons s t ih =>
    cases h : renderSegment prepare generate s voice response_format speed
        sanitize_text with
    | ok r =>
      simp only [List.filterMap_cons, okRecord, errRecord, h, Except.toOption,
        List.length_cons]
      omega
    | error e =>
      simp only [List.filterMap_cons, okRecord, errRecord, h, Except.toOption,
        List.length_cons]
      omega

/-- The archive loop from an arbitrary accumulator: entries accumulate as a
map over the items, the file system threads through the per-item unlinks. -/
theorem archiveLoop_go (response_format : String)
    (items : List (Int × String)) :
    ∀ (e : List (String × String)) (fs : List String),
      items.foldl
        (fun acc item =>
          (acc.1 ++ [(arcname item.1 response_format, item.2)],
           unlinkMissingOk acc.2 item.2)) (e, fs)
      = (e ++ items.map (fun item => (arcname item.1 response_format, item.2)),
         items.foldl (fun f item => unlinkMissingOk f item.2) fs) := by
  induction items with
  | nil => intro e fs; simp
  | cons item rest ih =>
    intro e fs
    simp only [List.foldl_cons, List.map_cons, ih, List.append_assoc,
      List.singleton_append]

/-- `archiveLoop` unfolded to its two components. -/
theorem archiveLoop_eq (response_format : String)
    (items : List (Int × String)) (fs : List String) :
    archiveLoop response_format items fs
      = (items.map (fun item => (arcname item.1 response_format, item.2)),
         items.foldl (fun f item => unlinkMissingOk f item.2) fs) := by
  simpa [archiveLoop] using archiveLoop_go response_format items [] fs

/-- The entries of the built archive are the index-sorted results, each
mapped to its deterministic entry name. -/
theorem writeArchive_fst (response_format : String)
    (results : List (Int × String)) (fs : List String) :
    (writeArchive response_format results fs).1
      = (results.mergeSort (fun a b => a.1 ≤ b.1)).map
          (fun item => (arcname item.1 response_format, item.2)) := by
  rw [writeArchive, archiveLoop_eq]

/-- A successfully rendered segment reports the cue's own index. -/
theorem renderSegment_ok_index (prepare : String → Except String String)
    (generate : String → String → String → Rat → Except String String)
    (s : Subtitle) (voice response_format : String) (speed : Rat)
    (sanitize_text : Bool) (r : Int × String)
    (h : renderSegment prepare generate s voice response_format speed
      sanitize_text = .ok r) : r.1 = s.index := by
  simp only [renderSegment] at h
  split at h
  · exact absurd h (by simp)
  · split at h
    · exact absurd h (by simp)
    · injection h with h'
      rw [← h']

/-- The keys of the collected successes form a sublist of the drained cues'
indices. -/
theorem okRecord_keys_sublist (prepare : String → Except String String)
    (generate : String → String → String → Rat → Except String String)
    (voice : String) (response_format : String) (speed : Rat)
    (sanitize_text : Bool) (l : List Subtitle) :
    ((l.filterMap (okRecord prepare generate voice response_format speed
        sanitize_text)).map Prod.fst).Sublist (l.map Subtitle.index) := by
  induction l with
  | nil => simp
  | cons s t ih =>
    cases h : renderSegment prepare generate s voice response_format speed
        sanitize_text with
    | ok r =>
      simp only [List.filterMap_cons, okRecord, h, Except.toOption,
        List.map_cons]
      rw [renderSegment_ok_index prepare generate s voice response_format
        speed sanitize_text r h]
      exact ih.cons₂ s.index
    | error e =>
      simp only [List.filterMap_cons, okRecord, h, Except.toOption,
        List.map_cons]
      exact ih.cons s.index

/-- If every cue of the batch renders, no error is recorded, for any
completion order. -/
theorem errors_nil_of_all_ok (prepare : String → Except String String)
    (generate : String → String → String → Rat → Except String String)
    (voice : String) (response_format : String) (speed : Rat)
    (sanitize_text : Bool) (subtitles completed : List Subtitle)
    (hperm : completed.Perm subtitles)
    (hok : ∀ s ∈ subtitles,
      (renderSegment prepare generate s voice response_format speed
        sanitize_text).toOption.isSome = true) :
    (collectResults prepare generate voice response_format speed sanitize_text
      completed).2 = [] := by
  rw [collectResults_eq, List.filterMap_eq_nil_iff]
  intro s hs
  have hsm := hok s (hperm.mem_iff.mp hs)
  cases h : renderSegment prepare generate s voice response_format speed
      sanitize_text with
  | ok r => simp [errRecord, h]
  | error e => rw [h] at hsm; simp [Except.toOption] at hsm

/-- With a positive worker count and an empty error list, the call reaches
the packaging step and returns the archive and the result count. -/
theorem render_ok_of_no_errors (prepare : String → Except String String)
    (generate : String → String → String → Rat → Except String String)
    (voice : String) (response_format : String) (speed : Rat)
    (sanitize_text : Bool) (completed : List Subtitle) (max_workers : Int)
    (fs : List String) (hmw : 0 < max_workers)
    (herr : (collectResults prepare generate voice response_format speed
      sanitize_text completed).2 = []) :
    render_subtitles_to_zip prepare generate voice response_format speed
        sanitize_text max_workers completed fs
      = .ok ((writeArchive response_format
            (collectResults prepare generate voice response_format speed
              sanitize_text completed).1 fs).1,
          (collectResults prepare generate voice response_format speed
            sanitize_text completed).1.length) := by
  have hmw' : ¬ max_workers ≤ 0 := not_le.mpr hmw
  simp only [render_subtitles_to_zip]
  rw [if_neg hmw', if_neg (by simp [herr])]

/-- When every cue renders, the number of collected successes is the batch
size. -/
theorem results_length_of_all_ok (prepare : String → Except String String)
    (generate : String → String → String → Rat → Except String String)
    (voice : String) (response_format : String) (speed : Rat)
    (sanitize_text : Bool) (subtitles completed : List Subtitle)
    (hperm : completed.Perm subtitles)
    (hok : ∀ s ∈ subtitles,
      (renderSegment prepare generate s voice response_format speed
        sanitize_text).toOption.isSome = true) :
    (collectResults prepare generate voice response_format speed sanitize_text
      completed).1.length = subtitles.length := by
  have herr := errors_nil_of_all_ok prepare generate voice response_format
    speed sanitize_text subtitles completed hperm hok
  have hsum := length_ok_add_err prepare generate voice response_format speed
    sanitize_text completed
  rw [collectResults_eq] at herr ⊢
  dsimp only at herr ⊢
  rw [herr] at hsum
  simp only [List.length_nil, Nat.add_zero] at hsum
  rw [hsum, hperm.length_eq]

/-- The index-sorted success list is sorted weakly by key. -/
theorem mergeSort_key_le (results : List (Int × String)) :
    (results.mergeSort (fun a b => a.1 ≤ b.1)).Pairwise
      (fun a b : Int × String => a.1 ≤ b.1) := by
  have h := @List.sorted_mergeSort (Int × String)
    (fun a b => decide (a.1 ≤ b.1))
    (fun a b c h1 h2 => by
      simp only [decide_eq_true_eq] at h1 h2 ⊢; omega)
    (fun a b => by
      by_cases h : a.1 ≤ b.1
      · simp [h]
      · have hb : b.1 ≤ a.1 := le_of_not_le h
        simp [hb])
    results
  exact h.imp (fun hab => of_decide_eq_true hab)

/-- No error is recorded exactly when every cue of the batch renders. -/
theorem errors_nil_iff_all_ok (prepare : String → Except String String)
    (generate : String → String → String → Rat → Except String String)
    (voice : String) (response_format : String) (speed : Rat)
    (sanitize_text : Bool) (subtitles completed : List Subtitle)
    (hperm : completed.Perm subtitles) :
    (collectResults prepare generate voice response_format speed sanitize_text
        completed).2 = []
      ↔ ∀ s ∈ subtitles,
          (renderSegment prepare generate s voice response_format speed
            sanitize_text).toOption.isSome = true := by
  constructor
  · intro h s hs
    rw [collectResults_eq] at h
    dsimp only at h
    rw [List.filterMap_eq_nil_iff] at h
    have hrec := h s (hperm.mem_iff.mpr hs)
    cases hr : renderSegment prepare generate s voice response_format speed
        sanitize_text with
    | ok r => simp [Except.toOption, hr]
    | error e => simp [errRecord, hr] at hrec
  · exact errors_nil_of_all_ok prepare generate voice response_format speed
      sanitize_text subtitles completed hperm

/-- With a positive worker count, the call succeeds exactly when no error
was recorded. -/
theorem render_isOk_iff (prepare : String → Except String String)
    (generate : String → String → String → Rat → Except String String)
    (voice : String) (response_format : String) (speed : Rat)
    (sanitize_text : Bool) (completed : List Subtitle) (max_workers : Int)
    (fs : List String) (hmw : 0 < max_workers) :
    ((render_subtitles_to_zip prepare generate voice response_format speed
        sanitize_text max_workers completed fs).toOption.isSome = true)
      ↔ (collectResults prepare generate voice response_format speed
          sanitize_text completed).2 = [] := by
  have hmw' : ¬ max_workers ≤ 0 := not_le.mpr hmw
  by_cases herr : (collectResults prepare generate voice response_format speed
      sanitize_text completed).2 = []
  · rw [render_ok_of_no_errors prepare generate voice response_format speed
      sanitize_text completed max_workers fs hmw herr]
    simp [Except.toOption, herr]
  · have hfail : render_subtitles_to_zip prepare generate voice
        response_format speed sanitize_text max_workers completed fs
        = .error (.runtimeError (String.intercalate "; "
            (collectResults prepare generate voice response_format speed
              sanitize_text completed).2)) := by
      simp only [render_subtitles_to_zip]
      rw [if_neg hmw', if_pos herr]
    simp [hfail, Except.toOption, herr]

/-- The keys of the collected successes are pairwise distinct whenever the
submitted cue indices are. -/
theorem results_keys_nodup (prepare : String → Except String String)
    (generate : String → String → String → Rat → Except String String)
    (voice : String) (response_format : String) (speed : Rat)
    (sanitize_text : Bool) (subtitles completed : List Subtitle)
    (hperm : completed.Perm subtitles)
    (hnodup : (subtitles.map Subtitle.index).Nodup) :
    ((collectResults prepare generate voice response_format speed
        sanitize_text completed).1.map Prod.fst).Nodup := by
  have hnodupC : (completed.map Subtitle.index).Nodup :=
    ((hperm.map Subtitle.index).nodup_iff).mpr hnodup
  rw [collectResults_eq]
  dsimp only
  exact List.Nodup.sublist
    (okRecord_keys_sublist prepare generate voice response_format speed
      sanitize_text completed) hnodupC

/-- Under distinct keys, the index-sorted success list is strictly sorted
by key. -/
theorem mergeSort_key_lt (results : List (Int × String))
    (hnodup : (results.map Prod.fst).Nodup) :
    (results.mergeSort (fun a b => a.1 ≤ b.1)).Pairwise
      (fun a b : Int × String => a.1 < b.1) := by
  have hle := mergeSort_key_le results
  have hnodupSorted : ((results.mergeSort (fun a b => a.1 ≤ b.1)).map
      Prod.fst).Nodup :=
    (((List.mergeSort_perm _ _).map Prod.fst).nodup_iff).mpr hnodup
  have hne : (results.mergeSort (fun a b => a.1 ≤ b.1)).Pairwise
      (fun a b : Int × String => a.1 ≠ b.1) :=
    List.pairwise_map.mp hnodupSorted
  exact (hle.and hne).imp (fun h => lt_of_le_of_ne h.1 h.2)

/-- Strictly-by-key-sorted permutations coincide. -/
theorem eq_of_perm_of_key_lt (l₁ l₂ : List (Int × String))
    (hp : l₁.Perm l₂)
    (h₁ : l₁.Pairwise (fun a b : Int × String => a.1 < b.1))
    (h₂ : l₂.Pairwise (fun a b : Int × String => a.1 < b.1)) : l₁ = l₂ := by
  haveI : IsAntisymm (Int × String) (fun a b : Int × String => a.1 < b.1) :=
    ⟨fun a b hab hba => absurd (lt_trans hab hba) (lt_irrefl _)⟩
  exact List.eq_of_perm_of_sorted hp h₁ h₂

/-- Membership in the file system after the per-item unlink fold: exactly
the files that were present and are not among the unlinked paths. -/
theorem mem_unlink_foldl (l : List (Int × String)) :
    ∀ (fs : List String) (q : String),
      (q ∈ l.foldl (fun f it => unlinkMissingOk f it.2) fs)
        ↔ (q ∈ fs ∧ q ∉ l.map Prod.snd) := by
  induction l with
  | nil => intro fs q; simp
  | cons x t ih =>
    intro fs q
    rw [List.foldl_cons, ih]
    simp only [unlinkMissingOk, List.mem_filter, List.map_cons,
      List.mem_cons, decide_eq_true_eq]
    tauto

/-- Structure eta for strings. -/
theorem string_mk_data (s : String) : String.mk s.data = s := rfl

/-- The length of a packed character list. -/
theorem string_mk_length (l : List Char) : (String.mk l).length = l.length :=
  rfl

/-- Every character produced by `Nat.toDigitsCore` in base 10 either was in
the accumulator or is a digit character of a value below 10. -/
theorem toDigitsCore_mem_digit :
    ∀ (f n : Nat) (acc : List Char) (ch : Char),
      ch ∈ Nat.toDigitsCore 10 f n acc →
      ch ∈ acc ∨ ∃ k : Nat, k < 10 ∧ ch = Nat.digitChar k := by
  intro f
  induction f with
  | zero => intro n acc ch h; exact Or.inl h
  | succ f ih =>
    intro n acc ch h
    simp only [Nat.toDigitsCore] at h
    by_cases hd : n / 10 = 0
    · rw [if_pos hd] at h
      rcases List.mem_cons.mp h with h' | h'
      · exact Or.inr ⟨n % 10, Nat.mod_lt _ (by decide), h'⟩
      · exact Or.inl h'
    · rw [if_neg hd] at h
      rcases ih (n / 10) (Nat.digitChar (n % 10) :: acc) ch h with h' | h'
      · rcases List.mem_cons.mp h' with h'' | h''
        · exact Or.inr ⟨n % 10, Nat.mod_lt _ (by decide), h''⟩
        · exact Or.inl h''
      · exact Or.inr h'

/-- The decimal representation of a natural number never starts with a
minus sign. -/
theorem repr_data_head_ne_minus (m : Nat) :
    (Nat.repr m).data.head? ≠ some '-' := by
  intro h
  have hmem : '-' ∈ (Nat.repr m).data := by
    cases hd : (Nat.repr m).data with
    | nil => rw [hd] at h; simp at h
    | cons a t =>
      rw [hd] at h
      rw [List.head?_cons] at h
      injection h with h'
      exact h' ▸ List.mem_cons_self _ _
  have hcore : '-' ∈ Nat.toDigitsCore 10 (m + 1) m [] := by
    simpa [Nat.repr, Nat.toDigits, List.asString] using hmem
  rcases toDigitsCore_mem_digit (m + 1) m [] '-' hcore with h' | ⟨k, hk, hch⟩
  · simp at h'
  · have hall : ∀ k' : Nat, k' < 10 → Nat.digitChar k' ≠ '-' := by decide
    exact hall k hk hch.symm

/-- `zfill` on a sign-free decimal string is a plain left pad. -/
theorem zfill_nonneg (width m : Nat) :
    zfill width (Nat.repr m) = pad0 width (Nat.repr m) := by
  rw [zfill, if_neg (repr_data_head_ne_minus m)]

/-- `zfill` on a minus-prefixed string pads after the sign. -/
theorem zfill_neg (width : Nat) (s : String) :
    zfill width ("-" ++ s) = "-" ++ pad0 (width - 1) s := by
  have hd : (("-" : String) ++ s).data = '-' :: s.data := rfl
  rw [zfill, hd]
  simp only [List.head?_cons, List.tail_cons, if_pos, string_mk_data]

/-- The Python `04d` rendering of an integer coincides with the spec's
zero-padded-decimal reading, for every integer. -/
theorem pyFormat04_eq_zfill (n : Int) : pyFormat04 n = zfill 4 (toString n) := by
  cases n with
  | ofNat m =>
    have h1 : toString (Int.ofNat m) = Nat.repr m := rfl
    have h2 : ¬ (Int.ofNat m < 0) := not_lt.mpr (Int.ofNat_nonneg m)
    rw [h1, zfill_nonneg, pyFormat04, if_neg h2]
    rfl
  | negSucc m =>
    have h1 : toString (Int.negSucc m) = "-" ++ Nat.repr (m + 1) := rfl
    have h2 : Int.negSucc m < 0 := Int.negSucc_lt_zero m
    rw [h1, zfill_neg, pyFormat04, if_pos h2]
    rfl

/-- A string no longer than the pad width pads to exactly the width. -/
theorem pad0_length (width : Nat) (s : String) (h : s.length ≤ width) :
    (pad0 width s).length = width := by
  rw [pad0, String.length_append, string_mk_length, List.length_replicate]
  omega

/-!  ## Claim theorems  -/

/-- C1.  Exactly one result per submitted cue: for any completion order that
is a permutation of the N submitted cues, the number of collected successes
plus the number of recorded failures equals N. -/
theorem c1_one_result_per_cue (prepare : String → Except String String)
    (generate : String → String → String → Rat → Except String String)
    (voice : String) (response_format : String) (speed : Rat)
    (sanitize_text : Bool) (subtitles completed : List Subtitle)
    (hperm : completed.Perm subtitles) :
    (collectResults prepare generate voice response_format speed sanitize_text
        completed).1.length
      + (collectResults prepare generate voice response_format speed
          sanitize_text completed).2.length
      = subtitles.length := by
  rw [collectResults_eq, ← hperm.length_eq]
  exact length_ok_add_err prepare generate voice response_format speed
    sanitize_text completed

/-- Witness for C1 at a concrete two-cue batch drained out of order, one cue
failing. -/
theorem c1_one_result_per_cue_witness :
    ([cueBoom, cueA]).Perm [cueA, cueBoom]
      ∧ (collectResults prepPicky genPicky "alloy" "mp3" 1 true
            [cueBoom, cueA]).1.length
          + (collectResults prepPicky genPicky "alloy" "mp3" 1 true
              [cueBoom, cueA]).2.length
        = 2 :=
  ⟨List.Perm.swap cueA cueBoom [],
   c1_one_result_per_cue prepPicky genPicky "alloy" "mp3" 1 true
     [cueA, cueBoom] [cueBoom, cueA] (List.Perm.swap cueA cueBoom [])⟩

/-- C2.  A batch in which no per-cue job fails returns normally, with the
archive holding exactly N entries and the reported clip count equal to N,
for any completion order of the N cues. -/
theorem c2_all_success_archive (prepare : String → Except String String)
    (generate : String → String → String → Rat → Except String String)
    (voice : String) (response_format : String) (speed : Rat)
    (sanitize_text : Bool) (subtitles completed : List Subtitle)
    (max_workers : Int) (fs : List String) (hmw : 0 < max_workers)
    (hperm : completed.Perm subtitles)
    (hok : ∀ s ∈ subtitles,
      (renderSegment prepare generate s voice response_format speed
        sanitize_text).toOption.isSome = true) :
    ∃ entries : List (String × String),
      render_subtitles_to_zip prepare generate voice response_format speed
          sanitize_text max_workers completed fs
        = .ok (entries, subtitles.length)
      ∧ entries.length = subtitles.length := by
  have hmw' : ¬ max_workers ≤ 0 := not_le.mpr hmw
  have herr : completed.filterMap (errRecord prepare generate voice
      response_format speed sanitize_text) = [] := by
    rw [List.filterMap_eq_nil_iff]
    intro s hs
    have hsm := hok s (hperm.mem_iff.mp hs)
    cases h : renderSegment prepare generate s voice response_format speed
        sanitize_text with
    | ok r => simp [errRecord, h]
    | error e => rw [h] at hsm; simp [Except.toOption] at hsm
  have hres : (completed.filterMap (okRecord prepare generate voice
      response_format speed sanitize_text)).length = subtitles.length := by
    have hsum := length_ok_add_err prepare generate voice response_format
      speed sanitize_text completed
    rw [herr] at hsum
    simp only [List.length_nil, Nat.add_zero] at hsum
    rw [hsum, hperm.length_eq]
  refine ⟨(writeArchive response_format (completed.filterMap
      (okRecord prepare generate voice response_format speed sanitize_text))
      fs).1, ?_, ?_⟩
  · simp only [render_subtitles_to_zip,
      collectResults_eq prepare generate voice response_format speed
        sanitize_text completed, herr]
    rw [if_neg hmw']
    simp [hres]
  · rw [writeArchive_fst]
    simp [hres]

/-- Witness for C2: two cues drained out of order, no failures, two
entries. -/
theorem c2_all_success_archive_witness :
    (0 : Int) < 2 ∧ ([cueB, cueA]).Perm [cueA, cueB]
      ∧ (∀ s ∈ [cueA, cueB],
          (renderSegment prepOk genPath s "alloy" "mp3" 1 true).toOption.isSome
            = true)
      ∧ ∃ entries : List (String × String),
          render_subtitles_to_zip prepOk genPath "alloy" "mp3" 1 true 2
              [cueB, cueA] []
            = .ok (entries, 2)
          ∧ entries.length = 2 :=
  ⟨by decide, List.Perm.swap cueA cueB [], by decide,
   c2_all_success_archive prepOk genPath "alloy" "mp3" 1 true [cueA, cueB]
     [cueB, cueA] 2 [] (by decide) (List.Perm.swap cueA cueB []) (by decide)⟩

/-- C3.  A batch with at least one failing cue raises the single aggregate
`RuntimeError` joining the recorded failure messages, the message for every
failed cue — naming its index, start and end timestamps and the cause —
appears among them, and no archive is built: the outcome is an error
(independent of the file system), packaging no successful artifact. -/
theorem c3_failed_batch_aggregate (prepare : String → Except String String)
    (generate : String → String → String → Rat → Except String String)
    (voice : String) (response_format : String) (speed : Rat)
    (sanitize_text : Bool) (subtitles completed : List Subtitle)
    (max_workers : Int) (fs : List String) (hmw : 0 < max_workers)
    (hperm : completed.Perm subtitles) (s₀ : Subtitle) (hs₀ : s₀ ∈ subtitles)
    (c₀ : String)
    (hfail : renderSegment prepare generate s₀ voice response_format speed
      sanitize_text = .error c₀) :
    render_subtitles_to_zip prepare generate voice response_format speed
        sanitize_text max_workers completed fs
      = .error (.runtimeError (String.intercalate "; "
          (collectResults prepare generate voice response_format speed
            sanitize_text completed).2))
    ∧ (∀ s ∈ subtitles, ∀ c,
        renderSegment prepare generate s voice response_format speed
            sanitize_text = .error c →
          ("Failed to render subtitle " ++ toString s.index ++ " (" ++ s.start
              ++ " -> " ++ s.endTime ++ "): " ++ c)
            ∈ (collectResults prepare generate voice response_format speed
                sanitize_text completed).2)
    ∧ ∀ fs' : List String,
        render_subtitles_to_zip prepare generate voice response_format speed
            sanitize_text max_workers completed fs
          = render_subtitles_to_zip prepare generate voice response_format
              speed sanitize_text max_workers completed fs' := by
  have hmw' : ¬ max_workers ≤ 0 := not_le.mpr hmw
  have hne : (collectResults prepare generate voice response_format speed
      sanitize_text completed).2 ≠ [] := by
    rw [collectResults_eq]
    intro h
    rw [List.filterMap_eq_nil_iff] at h
    have := h s₀ (hperm.mem_iff.mpr hs₀)
    simp [errRecord, hfail] at this
  have key : ∀ fsx : List String,
      render_subtitles_to_zip prepare generate voice response_format speed
          sanitize_text max_workers completed fsx
        = .error (.runtimeError (String.intercalate "; "
            (collectResults prepare generate voice response_format speed
              sanitize_text completed).2)) := by
    intro fsx
    simp only [render_subtitles_to_zip]
    rw [if_neg hmw', if_pos hne]
  refine ⟨key fs, ?_, fun fs' => (key fs).trans (key fs').symm⟩
  intro s hs c hc
  rw [collectResults_eq]
  exact List.mem_filterMap.mpr ⟨s, hperm.mem_iff.mpr hs,
    by simp [errRecord, hc, errorMessage]⟩

/-- Witness for C3: cue 5 fails synthesis inside a two-cue batch. -/
theorem c3_failed_batch_aggregate_witness :
    (0 : Int) < 2 ∧ ([cueBoom, cueA]).Perm [cueA, cueBoom]
      ∧ cueBoom ∈ [cueA, cueBoom]
      ∧ renderSegment prepOk genPicky cueBoom "alloy" "mp3" 1 true
          = .error "synthcrash"
      ∧ (render_subtitles_to_zip prepOk genPicky "alloy" "mp3" 1 true 2
            [cueBoom, cueA] []
          = .error (.runtimeError (String.intercalate "; "
              (collectResults prepOk genPicky "alloy" "mp3" 1 true
                [cueBoom, cueA]).2))
        ∧ (∀ s ∈ [cueA, cueBoom], ∀ c,
            renderSegment prepOk genPicky s "alloy" "mp3" 1 true = .error c →
              ("Failed to render subtitle " ++ toString s.index ++ " ("
                  ++ s.start ++ " -> " ++ s.endTime ++ "): " ++ c)
                ∈ (collectResults prepOk genPicky "alloy" "mp3" 1 true
                    [cueBoom, cueA]).2)
        ∧ ∀ fs' : List String,
            render_subtitles_to_zip prepOk genPicky "alloy" "mp3" 1 true 2
                [cueBoom, cueA] []
              = render_subtitles_to_zip prepOk genPicky "alloy" "mp3" 1 true 2
                  [cueBoom, cueA] fs') :=
  ⟨by decide, List.Perm.swap cueA cueBoom [], by decide, rfl,
   c3_failed_batch_aggregate prepOk genPicky "alloy" "mp3" 1 true
     [cueA, cueBoom] [cueBoom, cueA] 2 [] (by decide)
     (List.Perm.swap cueA cueBoom []) cueBoom (by decide) "synthcrash"
     rfl⟩

/-- C4.  For a fully successful batch the archive's entries are the success
pairs sorted by cue index, and — the cue indices of the batch being
pairwise distinct, as the data model guarantees — those indices appear in
strictly ascending order, for every completion order of the concurrent
jobs. -/
theorem c4_entries_strictly_ascending (prepare : String → Except String String)
    (generate : String → String → String → Rat → Except String String)
    (voice : String) (response_format : String) (speed : Rat)
    (sanitize_text : Bool) (subtitles completed : List Subtitle)
    (max_workers : Int) (fs : List String) (hmw : 0 < max_workers)
    (hperm : completed.Perm subtitles)
    (hok : ∀ s ∈ subtitles,
      (renderSegment prepare generate s voice response_format speed
        sanitize_text).toOption.isSome = true)
    (hnodup : (subtitles.map Subtitle.index).Nodup) :
    ∃ sortedRes : List (Int × String),
      render_subtitles_to_zip prepare generate voice response_format speed
          sanitize_text max_workers completed fs
        = .ok (sortedRes.map
              (fun item => (arcname item.1 response_format, item.2)),
            subtitles.length)
      ∧ (sortedRes.map Prod.fst).Pairwise (· < ·) := by
  have herr := errors_nil_of_all_ok prepare generate voice response_format
    speed sanitize_text subtitles completed hperm hok
  have hrender := render_ok_of_no_errors prepare generate voice
    response_format speed sanitize_text completed max_workers fs hmw herr
  refine ⟨(collectResults prepare generate voice response_format speed
      sanitize_text completed).1.mergeSort (fun a b => a.1 ≤ b.1), ?_, ?_⟩
  · rw [hrender, writeArchive_fst, results_length_of_all_ok prepare generate
      voice response_format speed sanitize_text subtitles completed hperm hok]
  · have hle := mergeSort_key_le (collectResults prepare generate voice
      response_format speed sanitize_text completed).1
    have hkeysle : (((collectResults prepare generate voice response_format
        speed sanitize_text completed).1.mergeSort
          (fun a b => a.1 ≤ b.1)).map Prod.fst).Pairwise
        (fun a b : Int => a ≤ b) := List.pairwise_map.mpr hle
    have hnodupC : (completed.map Subtitle.index).Nodup :=
      ((hperm.map Subtitle.index).nodup_iff).mpr hnodup
    have hnodupRes : ((collectResults prepare generate voice response_format
        speed sanitize_text completed).1.map Prod.fst).Nodup := by
      rw [collectResults_eq]
      dsimp only
      exact List.Nodup.sublist
        (okRecord_keys_sublist prepare generate voice response_format speed
          sanitize_text completed) hnodupC
    have hnodupSorted : (((collectResults prepare generate voice
        response_format speed sanitize_text completed).1.mergeSort
          (fun a b => a.1 ≤ b.1)).map Prod.fst).Nodup :=
      (((List.mergeSort_perm _ _).map Prod.fst).nodup_iff).mpr hnodupRes
    exact (hkeysle.and hnodupSorted).imp
      (fun h => lt_of_le_of_ne h.1 h.2)

/-- Witness for C4: indices submitted as [2, 1], drained as [1, 2]-cue
order reversed, archive sorted to [1, 2]. -/
theorem c4_entries_strictly_ascending_witness :
    (0 : Int) < 3 ∧ ([cueA, cueB]).Perm [cueB, cueA]
      ∧ (∀ s ∈ [cueB, cueA],
          (renderSegment prepOk genPath s "alloy" "mp3" 1 true).toOption.isSome
            = true)
      ∧ ([cueB, cueA].map Subtitle.index).Nodup
      ∧ ∃ sortedRes : List (Int × String),
          render_subtitles_to_zip prepOk genPath "alloy" "mp3" 1 true 3
              [cueA, cueB] []
            = .ok (sortedRes.map
                  (fun item => (arcname item.1 "mp3", item.2)), 2)
          ∧ (sortedRes.map Prod.fst).Pairwise (· < ·) :=
  ⟨by decide, List.Perm.swap cueB cueA [], by decide, by decide,
   c4_entries_strictly_ascending prepOk genPath "alloy" "mp3" 1 true
     [cueB, cueA] [cueA, cueB] 3 [] (by decide)
     (List.Perm.swap cueB cueA []) (by decide) (by decide)⟩

/-- C5.  Every entry written to the archive is named by the spec scheme:
the 4-digit zero-padded decimal index of its pair, a dot, and the format
extension.  The code's `arcname` coincides with the scheme for every
integer index, the padding makes exactly four characters throughout the
in-range indices, and index 7 with format `mp3` yields `"0007.mp3"`. -/
theorem c5_entry_naming (response_format : String)
    (results : List (Int × String)) (fs : List String)
    (entry : String × String)
    (hentry : entry ∈ (writeArchive response_format results fs).1) :
    (∃ item ∈ results,
        entry = (specEntryName item.1 response_format, item.2))
    ∧ (∀ index : Int,
        arcname index response_format = specEntryName index response_format)
    ∧ (∀ index : Int, 0 ≤ index → index ≤ 9999 →
        (zfill 4 (toString index)).length = 4)
    ∧ arcname 7 "mp3" = "0007.mp3" := by
  have harc : ∀ index : Int,
      arcname index response_format = specEntryName index response_format := by
    intro i
    rw [arcname, specEntryName, pyFormat04_eq_zfill]
  refine ⟨?_, harc, ?_, rfl⟩
  · rw [writeArchive_fst] at hentry
    rcases List.mem_map.mp hentry with ⟨item, hmem, hitem⟩
    exact ⟨item, List.mem_mergeSort.mp hmem, by rw [← hitem, harc]⟩
  · intro i h0 h1
    rw [← pyFormat04_eq_zfill]
    obtain ⟨m, rfl⟩ := Int.eq_ofNat_of_zero_le h0
    rw [pyFormat04, if_neg (not_lt.mpr (Int.ofNat_nonneg m))]
    show (pad0 4 (Nat.repr m)).length = 4
    apply pad0_length
    have hm : m < 10 ^ 4 := by omega
    exact Nat.repr_length m 4 (by decide) hm

unseal List.merge List.mergeSort in
/-- Witness for C5 at the spec's own example, index 7 and format mp3. -/
theorem c5_entry_naming_witness :
    (("0007.mp3", "/a") ∈ (writeArchive "mp3" [((7 : Int), "/a")] []).1)
      ∧ ((∃ item ∈ [((7 : Int), "/a")],
            ("0007.mp3", "/a") = (specEntryName item.1 "mp3", item.2))
        ∧ (∀ index : Int, arcname index "mp3" = specEntryName index "mp3")
        ∧ (∀ index : Int, 0 ≤ index → index ≤ 9999 →
            (zfill 4 (toString index)).length = 4)
        ∧ arcname 7 "mp3" = "0007.mp3") :=
  ⟨by decide,
   c5_entry_naming "mp3" [((7 : Int), "/a")] [] ("0007.mp3", "/a")
     (by decide)⟩

/-- C6.  A non-positive `max_workers` is rejected up front with the
`ThreadPoolExecutor` `ValueError`, for every oracle pair, completion order
and file system alike — so no rendering unit is submitted or started and
the value is never clamped. -/
theorem c6_nonpositive_workers_rejected (max_workers : Int)
    (hmw : max_workers ≤ 0) (voice response_format : String) (speed : Rat)
    (sanitize_text : Bool) :
    ∀ (prepare : String → Except String String)
      (generate : String → String → String → Rat → Except String String)
      (completed : List Subtitle) (fs : List String),
      render_subtitles_to_zip prepare generate voice response_format speed
          sanitize_text max_workers completed fs
        = .error (.valueError "max_workers must be greater than 0") := by
  intro prepare generate completed fs
  simp [render_subtitles_to_zip, hmw]

/-- Witness for C6 at `max_workers = 0`. -/
theorem c6_nonpositive_workers_rejected_witness :
    (0 : Int) ≤ 0
      ∧ render_subtitles_to_zip prepOk genPath "alloy" "mp3" 1 true 0
          [cueA] []
        = .error (.valueError "max_workers must be greater than 0") :=
  ⟨le_refl 0,
   c6_nonpositive_workers_rejected 0 (le_refl 0) "alloy" "mp3" 1 true
     prepOk genPath [cueA] []⟩

/-- C7.  The worker limit and the completion schedule never affect the
final output: two runs over the same cue batch with any two positive worker
counts and any two completion orders succeed or fail together, and when no
cue fails they return the very same archive entries and clip count. -/
theorem c7_worker_count_immaterial (prepare : String → Except String String)
    (generate : String → String → String → Rat → Except String String)
    (voice : String) (response_format : String) (speed : Rat)
    (sanitize_text : Bool) (subtitles completed₁ completed₂ : List Subtitle)
    (mw₁ mw₂ : Int) (fs : List String) (hmw₁ : 0 < mw₁) (hmw₂ : 0 < mw₂)
    (hperm₁ : completed₁.Perm subtitles) (hperm₂ : completed₂.Perm subtitles)
    (hnodup : (subtitles.map Subtitle.index).Nodup) :
    (((render_subtitles_to_zip prepare generate voice response_format speed
          sanitize_text mw₁ completed₁ fs).toOption.isSome = true)
      ↔ ((render_subtitles_to_zip prepare generate voice response_format
          speed sanitize_text mw₂ completed₂ fs).toOption.isSome = true))
    ∧ ((∀ s ∈ subtitles,
          (renderSegment prepare generate s voice response_format speed
            sanitize_text).toOption.isSome = true) →
        render_subtitles_to_zip prepare generate voice response_format speed
            sanitize_text mw₁ completed₁ fs
          = render_subtitles_to_zip prepare generate voice response_format
              speed sanitize_text mw₂ completed₂ fs) := by
  constructor
  · rw [render_isOk_iff prepare generate voice response_format speed
        sanitize_text completed₁ mw₁ fs hmw₁,
      render_isOk_iff prepare generate voice response_format speed
        sanitize_text completed₂ mw₂ fs hmw₂,
      errors_nil_iff_all_ok prepare generate voice response_format speed
        sanitize_text subtitles completed₁ hperm₁,
      errors_nil_iff_all_ok prepare generate voice response_format speed
        sanitize_text subtitles completed₂ hperm₂]
  · intro hok
    have herr₁ := errors_nil_of_all_ok prepare generate voice response_format
      speed sanitize_text subtitles completed₁ hperm₁ hok
    have herr₂ := errors_nil_of_all_ok prepare generate voice response_format
      speed sanitize_text subtitles completed₂ hperm₂ hok
    rw [render_ok_of_no_errors prepare generate voice response_format speed
        sanitize_text completed₁ mw₁ fs hmw₁ herr₁,
      render_ok_of_no_errors prepare generate voice response_format speed
        sanitize_text completed₂ mw₂ fs hmw₂ herr₂]
    have hpres : (collectResults prepare generate voice response_format speed
        sanitize_text completed₁).1.Perm
        (collectResults prepare generate voice response_format speed
          sanitize_text completed₂).1 := by
      rw [collectResults_eq, collectResults_eq]
      dsimp only
      exact (hperm₁.filterMap _).trans (hperm₂.filterMap _).symm
    have hsorted_eq : (collectResults prepare generate voice response_format
          speed sanitize_text completed₁).1.mergeSort (fun a b => a.1 ≤ b.1)
        = (collectResults prepare generate voice response_format speed
            sanitize_text completed₂).1.mergeSort (fun a b => a.1 ≤ b.1) :=
      eq_of_perm_of_key_lt _ _
        ((List.mergeSort_perm _ _).trans
          (hpres.trans (List.mergeSort_perm _ _).symm))
        (mergeSort_key_lt _
          (results_keys_nodup prepare generate voice response_format speed
            sanitize_text subtitles completed₁ hperm₁ hnodup))
        (mergeSort_key_lt _
          (results_keys_nodup prepare generate voice response_format speed
            sanitize_text subtitles completed₂ hperm₂ hnodup))
    rw [writeArchive_fst, writeArchive_fst, hsorted_eq, hpres.length_eq]

/-- Witness for C7: the same two-cue batch with 1 and with 8 workers and
opposite completion orders produces the same outcome. -/
theorem c7_worker_count_immaterial_witness :
    (0 : Int) < 1 ∧ (0 : Int) < 8
      ∧ ([cueA, cueB]).Perm [cueA, cueB] ∧ ([cueB, cueA]).Perm [cueA, cueB]
      ∧ ([cueA, cueB].map Subtitle.index).Nodup
      ∧ ((((render_subtitles_to_zip prepOk genPath "alloy" "mp3" 1 true 1
              [cueA, cueB] []).toOption.isSome = true)
          ↔ ((render_subtitles_to_zip prepOk genPath "alloy" "mp3" 1 true 8
              [cueB, cueA] []).toOption.isSome = true))
        ∧ ((∀ s ∈ [cueA, cueB],
              (renderSegment prepOk genPath s "alloy" "mp3" 1
                true).toOption.isSome = true) →
            render_subtitles_to_zip prepOk genPath "alloy" "mp3" 1 true 1
                [cueA, cueB] []
              = render_subtitles_to_zip prepOk genPath "alloy" "mp3" 1 true 8
                  [cueB, cueA] [])) :=
  ⟨by decide, by decide, List.Perm.refl [cueA, cueB],
   List.Perm.swap cueA cueB [], by decide,
   c7_worker_count_immaterial prepOk genPath "alloy" "mp3" 1 true
     [cueA, cueB] [cueA, cueB] [cueB, cueA] 1 8 [] (by decide) (by decide)
     (List.Perm.refl [cueA, cueB]) (List.Perm.swap cueA cueB [])
     (by decide)⟩

/-- C8.  With the sanitize flag enabled, normalization runs inside the unit
before synthesis: a normalization failure is the unit's failure for every
synthesizer (synthesis is never consulted), a successful normalization
feeds its output to synthesis in the same unit, a normalization failure and
a synthesis failure with the same cause produce the identical failure
record, and a failing unit contributes exactly its own record — siblings
before and after it are collected unchanged. -/
theorem c8_normalization_hot_path (voice response_format : String)
    (speed : Rat) (s : Subtitle)
    (p₁ p₂ : String → Except String String)
    (g₁ g₂ : String → String → String → Rat → Except String String)
    (t c : String) (hp₁ : p₁ s.content = .error c)
    (hp₂ : p₂ s.content = .ok t)
    (hg₂ : g₂ t voice response_format speed = .error c)
    (pre post : List Subtitle) :
    (∀ g : String → String → String → Rat → Except String String,
        renderSegment p₁ g s voice response_format speed true = .error c)
    ∧ renderSegment p₂ g₂ s voice response_format speed true
        = (g₂ t voice response_format speed).map (fun path => (s.index, path))
    ∧ collectResults p₁ g₁ voice response_format speed true [s]
        = ([], [errorMessage s c])
    ∧ collectResults p₂ g₂ voice response_format speed true [s]
        = ([], [errorMessage s c])
    ∧ collectResults p₁ g₁ voice response_format speed true (pre ++ s :: post)
        = ((collectResults p₁ g₁ voice response_format speed true pre).1
             ++ (collectResults p₁ g₁ voice response_format speed true [s]).1
             ++ (collectResults p₁ g₁ voice response_format speed true post).1,
           (collectResults p₁ g₁ voice response_format speed true pre).2
             ++ (collectResults p₁ g₁ voice response_format speed true [s]).2
             ++ (collectResults p₁ g₁ voice response_format speed true
                  post).2) := by
  refine ⟨?_, ?_, ?_, ?_, ?_⟩
  · intro g
    simp [renderSegment, hp₁]
  · simp [renderSegment, hp₂, hg₂, Except.map]
  · simp [collectResults, renderSegment, hp₁]
  · simp [collectResults, renderSegment, hp₂, hg₂]
  · rw [collectResults_eq, collectResults_eq, collectResults_eq,
      collectResults_eq]
    have har : renderSegment p₁ g₁ s voice response_format speed true
        = .error c := by simp [renderSegment, hp₁]
    simp [List.filterMap_append, List.filterMap_cons, okRecord, errRecord,
      har, Except.toOption]

/-- Witness for C8: cue 3 ("bad") failing normalization under
`prepPicky`/`genPath` versus failing synthesis with the same cause under
`prepOk`/`genBadCrash`, between siblings `cueA` and `cueB`. -/
theorem c8_normalization_hot_path_witness :
    prepPicky cueBad.content = .error "normcrash"
      ∧ prepOk cueBad.content = .ok "bad"
      ∧ genBadCrash "bad" "alloy" "mp3" 1 = .error "normcrash"
      ∧ ((∀ g : String → String → String → Rat → Except String String,
            renderSegment prepPicky g cueBad "alloy" "mp3" 1 true
              = .error "normcrash")
        ∧ renderSegment prepOk genBadCrash cueBad "alloy" "mp3" 1 true
            = (genBadCrash "bad" "alloy" "mp3" 1).map
                (fun path => (cueBad.index, path))
        ∧ collectResults prepPicky genPath "alloy" "mp3" 1 true [cueBad]
            = ([], [errorMessage cueBad "normcrash"])
        ∧ collectResults prepOk genBadCrash "alloy" "mp3" 1 true [cueBad]
            = ([], [errorMessage cueBad "normcrash"])
        ∧ collectResults prepPicky genPath "alloy" "mp3" 1 true
              ([cueA] ++ cueBad :: [cueB])
            = ((collectResults prepPicky genPath "alloy" "mp3" 1 true
                  [cueA]).1
                 ++ (collectResults prepPicky genPath "alloy" "mp3" 1 true
                      [cueBad]).1
                 ++ (collectResults prepPicky genPath "alloy" "mp3" 1 true
                      [cueB]).1,
               (collectResults prepPicky genPath "alloy" "mp3" 1 true
                  [cueA]).2
                 ++ (collectResults prepPicky genPath "alloy" "mp3" 1 true
                      [cueBad]).2
                 ++ (collectResults prepPicky genPath "alloy" "mp3" 1 true
                      [cueB]).2)) :=
  ⟨rfl, rfl, rfl,
   c8_normalization_hot_path "alloy" "mp3" 1 cueBad prepPicky prepOk genPath
     genBadCrash "bad" "normcrash" rfl rfl rfl [cueA] [cueB]⟩

/-- C9.  The archiving loop deletes each source artifact immediately after
appending its entry, tolerates a deletion target that is already missing
(the unlink is total and a no-op there), leaves every file outside the
archived artifact set untouched, and removes every archived artifact from
the file system. -/
theorem c9_archive_frame (response_format : String)
    (l : List (Int × String)) (item : Int × String) (fs : List String)
    (q path : String) (hq : q ∉ l.map Prod.snd) (hpath : path ∉ fs) :
    (archiveLoop response_format (l ++ [item]) fs
       = ((archiveLoop response_format l fs).1
            ++ [(arcname item.1 response_format, item.2)],
          unlinkMissingOk (archiveLoop response_format l fs).2 item.2))
    ∧ unlinkMissingOk fs path = fs
    ∧ ((q ∈ (archiveLoop response_format l fs).2) ↔ q ∈ fs)
    ∧ (∀ it ∈ l, it.2 ∉ (archiveLoop response_format l fs).2) := by
  refine ⟨?_, ?_, ?_, ?_⟩
  · rw [archiveLoop_eq, archiveLoop_eq]
    simp [List.foldl_append, List.map_append]
  · rw [unlinkMissingOk, List.filter_eq_self]
    intro a ha
    simp only [decide_eq_true_eq]
    intro heq
    exact hpath (heq ▸ ha)
  · rw [archiveLoop_eq]
    dsimp only
    rw [mem_unlink_foldl]
    simp [hq]
  · intro it hit hmem
    rw [archiveLoop_eq] at hmem
    dsimp only at hmem
    rw [mem_unlink_foldl] at hmem
    exact hmem.2 (List.mem_map_of_mem Prod.snd hit)

/-- Witness for C9 on a concrete three-artifact file system. -/
theorem c9_archive_frame_witness :
    ("/x" ∉ ([(1, "/a"), ((2 : Int), "/b")]).map Prod.snd)
      ∧ ("/zz" ∉ ["/a", "/b", "/x"])
      ∧ ((archiveLoop "mp3" ([(1, "/a"), (2, "/b")] ++ [(3, "/c")])
            ["/a", "/b", "/x"]
          = ((archiveLoop "mp3" [(1, "/a"), (2, "/b")]
                ["/a", "/b", "/x"]).1 ++ [(arcname 3 "mp3", "/c")],
             unlinkMissingOk (archiveLoop "mp3" [(1, "/a"), (2, "/b")]
                ["/a", "/b", "/x"]).2 "/c"))
        ∧ unlinkMissingOk ["/a", "/b", "/x"] "/zz" = ["/a", "/b", "/x"]
        ∧ (("/x" ∈ (archiveLoop "mp3" [(1, "/a"), (2, "/b")]
              ["/a", "/b", "/x"]).2) ↔ "/x" ∈ ["/a", "/b", "/x"])
        ∧ (∀ it ∈ ([(1, "/a"), ((2 : Int), "/b")]),
            it.2 ∉ (archiveLoop "mp3" [(1, "/a"), (2, "/b")]
              ["/a", "/b", "/x"]).2)) :=
  ⟨by decide, by decide,
   c9_archive_frame "mp3" [(1, "/a"), (2, "/b")] (3, "/c")
     ["/a", "/b", "/x"] "/x" "/zz" (by decide) (by decide)⟩

/-- C10.  The empty batch with a valid worker count returns the empty
archive and clip count 0, and does so identically for every oracle pair —
normalization and synthesis are never invoked. -/
theorem c10_empty_batch (max_workers : Int) (hmw : 0 < max_workers)
    (voice response_format : String) (speed : Rat) (sanitize_text : Bool)
    (completed : List Subtitle) (hperm : completed.Perm ([] : List Subtitle))
    (fs : List String) :
    ∀ (prepare : String → Except String String)
      (generate : String → String → String → Rat → Except String String),
      render_subtitles_to_zip prepare generate voice response_format speed
          sanitize_text max_workers completed fs
        = .ok ([], 0) := by
  intro prepare generate
  obtain rfl : completed = [] := hperm.eq_nil
  have hmw' : ¬ max_workers ≤ 0 := not_le.mpr hmw
  simp [render_subtitles_to_zip, hmw', collectResults, writeArchive,
    archiveLoop]

/-- Witness for C10 at `max_workers = 4`. -/
theorem c10_empty_batch_witness :
    (0 : Int) < 4 ∧ ([] : List Subtitle).Perm []
      ∧ render_subtitles_to_zip prepOk genPath "alloy" "mp3" 1 true 4 [] []
        = .ok ([], 0) :=
  ⟨by decide, List.Perm.refl [],
   c10_empty_batch 4 (by decide) "alloy" "mp3" 1 true [] (List.Perm.refl [])
     [] prepOk genPath⟩

end SubtitleTTS
